import Mathlib

/-!
Shallow embedding of the core pipeline of `src/x-bot.py` (an RSS-to-X posting
bot): text truncation, content filtering, AI enhancement and risk assessment,
crash-safe log appends, the dedup index, and the per-run orchestration loops
(pre-filter, AI-budget loop, posting quota loop).

Texts are modelled as `List Char` (Python `str` is a sequence of code points,
as is `List Char`).  Python regular-expression constructs used by the source
are translated into explicit scanning functions; `\w`, `\s`, `\d` are modelled
by their ASCII semantics (every claim-relevant character is ASCII, and the few
non-ASCII characters appearing in the configuration are neither word
characters nor whitespace in Python, matching the model).  External effects
(the generative-text service, the posting API, the file system) are modelled
as explicit oracle parameters.
-/

set_option maxRecDepth 400000

namespace XBot

/-- Python `\s` (ASCII range): space, tab, newline, carriage return,
vertical tab, form feed.  Also used to model `str.strip()`. -/
def isPySpace (c : Char) : Bool :=
  c = ' ' || c = '\t' || c = '\n' || c = '\r' || c = '\x0b' || c = '\x0c'

/-- Python `\w` (ASCII range): letters, digits, underscore. -/
def isWordChar (c : Char) : Bool := c.isAlphanum || c = '_'

/-- Texts are sequences of code points. -/
abbrev Str := List Char

/-- Python `str.strip()`: remove leading and trailing whitespace. -/
def pyStrip (s : Str) : Str :=
  ((s.dropWhile isPySpace).reverse.dropWhile isPySpace).reverse

/-- Python `str.lower()` (ASCII-accurate). -/
def pyLower (s : Str) : Str := s.map Char.toLower

/-- `X_CHAR_LIMIT = 280` (x-bot.py line 86). -/
def X_CHAR_LIMIT : Nat := 280

/-- The lookbehind `(?<=[.!?])` of `re.split(r'(?<=[.!?])\s+', ...)` in
`truncate_and_format`: was the previous character `.`, `!` or `?`. -/
def isSentEnd : Option Char → Bool
  | some c => c = '.' || c = '!' || c = '?'
  | none => false

/-- `re.split(r'(?<=[.!?])\s+', text)` (x-bot.py line 496): split at each
maximal whitespace run immediately following `.`, `!` or `?`; the whitespace
itself is consumed.  `skip = true` means we are inside such a run; `prev` is
the previously scanned character; `acc` is the current sentence, reversed. -/
def splitAux : Str → Bool → Option Char → Str → List Str
  | [], true, _, _ => [[]]
  | [], false, _, acc => [acc.reverse]
  | c :: rest, true, _, _ =>
    if isPySpace c then splitAux rest true none []
    else splitAux rest false (some c) [c]
  | c :: rest, false, prev, acc =>
    if isSentEnd prev && isPySpace c then acc.reverse :: splitAux rest true none []
    else splitAux rest false (some c) (c :: acc)

/-- Sentence splitting of `truncate_and_format` (x-bot.py line 496). -/
def splitSentences (s : Str) : List Str := splitAux s false none []

/-- The greedy accumulation loop of `truncate_and_format` (x-bot.py lines
497-504): `current_len` starts at 0, each kept sentence contributes
`len(sent) + 1` (for a newline), and the loop breaks as soon as the next
sentence would push the running total past `X_CHAR_LIMIT - 3`. -/
def greedyTake : List Str → Nat → List Str
  | [], _ => []
  | s :: rest, cur =>
    if cur + (s.length + 1) > X_CHAR_LIMIT - 3 then []
    else s :: greedyTake rest (cur + (s.length + 1))

/-- `truncate_and_format` (x-bot.py lines 495-508): split into sentences,
greedily accumulate, join with newlines, and hard-truncate with an ellipsis
if the joined result still exceeds `X_CHAR_LIMIT - 3`. -/
def truncate_and_format (text : Str) : Str :=
  let sentences := splitSentences (pyStrip text)
  let formatted := greedyTake sentences 0
  let result := List.intercalate ['\n'] formatted
  if result.length > X_CHAR_LIMIT - 3 then
    result.take (X_CHAR_LIMIT - 3) ++ "...".toList
  else result

/-- Helper: the length of `List.take` is bounded by the count taken. -/
theorem length_take_le' (n : Nat) (l : Str) : (l.take n).length ≤ n :=
  List.length_take_le n l

/-!
## Filter engine: `is_allowed_tweet` (x-bot.py lines 212-242) and its
configuration `FILTER_CONFIG` (lines 87-97).

The configuration is reproduced byte-accurately.  Two entries of the source
file are mojibake left in the repository itself: the keyword `"8‚Äì9 pm"`
(bytes `38 E2 80 9A C3 84 C3 AC 39 20 70 6D`, i.e. the code points
`8 U+201A U+00C4 U+00EC 9 SPACE p m`) and the third thread pattern (code
points `U+F8FF U+00FC U+00DF U+00B5`).  Both are modelled with exactly those
code points.
-/

/-- Python `sub in s` (substring containment): `pat` occurs contiguously in
`s`. -/
def isSubstring (pat : Str) : Str → Bool
  | [] => pat.isPrefixOf []
  | c :: t => pat.isPrefixOf (c :: t) || isSubstring pat t

/-- `FILTER_CONFIG["blocked_keywords"]` (x-bot.py lines 88-93), in order. -/
def blocked_keywords : List Str :=
  [ ['w', 'e', '\'', 'l', 'l'], "we will".toList, "join us".toList,
    "tomorrow".toList, "register".toList, "sign up".toList,
    "link below".toList, "spaces".toList, "event".toList,
    "set reminder".toList,
    ['8', Char.ofNat 0x201A, Char.ofNat 0xC4, Char.ofNat 0xEC, '9', ' ', 'p', 'm'],
    "tune in".toList, "livestream".toList, "discussion".toList,
    "webinar".toList, "follow for more".toList,
    "today".toList, "next week".toList, "morning".toList,
    "evening".toList, "tonight".toList ]

/-- `FILTER_CONFIG["personal_words"]` (x-bot.py line 94), in order. -/
def personal_words : List Str :=
  [ "i ".toList, "my ".toList, "me ".toList, "our ".toList,
    "we ".toList, "mine ".toList, "myself".toList ]

/-- The literal code points of the third thread pattern (x-bot.py line 96). -/
def threadGlyphs : Str :=
  [Char.ofNat 0xF8FF, Char.ofNat 0xFC, Char.ofNat 0xDF, Char.ofNat 0xB5]

/-- First thread pattern `^\(?\s*1[\./]\s*` (x-bot.py line 96): anchored at
the start, an optional `(`, any whitespace, the digit `1`, then `.` or `/`
(the trailing `\s*` always succeeds).  If the text starts with `(` but the
remainder fails, the backtracking alternative that leaves `(` unconsumed
fails as well, since `(` is neither whitespace nor `1`; so consuming a
leading `(` unconditionally is exact. -/
def matchesThreadNumber (s : Str) : Bool :=
  let s1 := match s with
    | '(' :: t => t
    | _ => s
  match s1.dropWhile isPySpace with
  | '1' :: c :: _ => c = '.' || c = '/'
  | _ => false

/-- `part\s*\d+` matching at the current position: the literal `part`,
whitespace, then at least one digit.  (`\s*` greedy followed by `\d` needs no
backtracking because whitespace and digits are disjoint.) -/
def partNumAt (s : Str) : Bool :=
  "part".toList.isPrefixOf s &&
    match (s.drop 4).dropWhile isPySpace with
    | d :: _ => d.isDigit
    | [] => false

/-- `re.search(r"part\s*\d+", s)`: try `partNumAt` at every position. -/
def containsPartNumber : Str → Bool
  | [] => false
  | c :: t => partNumAt (c :: t) || containsPartNumber t

/-- The thread-pattern loop of `is_allowed_tweet` (x-bot.py lines 221-224):
the four patterns are tried in order against the lowercased text and the loop
breaks at the first match.  (`re.IGNORECASE` is immaterial: the text is
already lowercase and the literal patterns are lowercase.) -/
def threadPatternHit (lower : Str) : Bool :=
  matchesThreadNumber lower || containsPartNumber lower ||
    isSubstring threadGlyphs lower || isSubstring "thread".toList lower

/-- The character class actually compiled by line 229 of x-bot.py.  The code
builds `rf"[^{allow_symbols}]"` with `allow_symbols = r"[\w\s,.'\"!?-]"`,
producing the regex `[^[\w\s,.'\"!?-]]`: a negated class whose members are
`[`, word characters, whitespace and the punctuation set, followed by a
literal `]`.  So `[` counts as an allowed character here. -/
def inBuggyClass (c : Char) : Bool :=
  c = '[' || isWordChar c || isPySpace c ||
    c = ',' || c = '.' || c = '\'' || c = '"' || c = '!' || c = '?' || c = '-'

/-- `re.search(rf"[^{allow_symbols}]", text)` as compiled (see
`inBuggyClass`): a character outside the class immediately followed by a
literal `]`, anywhere in the (original, non-lowercased) text. -/
def buggySymbolHit : Str → Bool
  | a :: b :: t => (!inBuggyClass a && b = ']') || buggySymbolHit (b :: t)
  | _ => false

/-- The allowed-symbol class as the specification states it (word characters,
whitespace, and the punctuation set `, . ' " ! ? -`).  Modelled from the
spec for comparison with the compiled regex; this is what `allow_symbols`
was evidently intended to express. -/
def allowedSymbol (c : Char) : Bool :=
  isWordChar c || isPySpace c ||
    c = ',' || c = '.' || c = '\'' || c = '"' || c = '!' || c = '?' || c = '-'

/-- Is the (optional) character a word character; absent characters (string
boundaries) count as non-word, as in Python `\b`. -/
def isWordOpt : Option Char → Bool
  | some c => isWordChar c
  | none => false

/-- Python `\b`: a word boundary between two (optional) characters. -/
def wordBoundary (a b : Option Char) : Bool := isWordOpt a != isWordOpt b

/-- One attempt of `re.search(rf"\b{re.escape(word)}\b", lower)` at the
current position: the literal word (with its spaces escaped, hence literal)
must be a prefix here, with word boundaries before its first and after its
last character. -/
def personalWordAt (w : Str) (prev : Option Char) (s : Str) : Bool :=
  w.isPrefixOf s && wordBoundary prev w.head? &&
    wordBoundary w.getLast? (s.drop w.length).head?

/-- `re.search(rf"\b{re.escape(word)}\b", lower)`: try every position,
tracking the preceding character for the left boundary. -/
def personalWordHit (w : Str) : Option Char → Str → Bool
  | _, [] => false
  | prev, c :: t => personalWordAt w prev (c :: t) || personalWordHit w (some c) t

/-- `is_allowed_tweet` (x-bot.py lines 212-242).  Each `for`-loop breaks at
its first match, so at most one reason per rule group, in source order.  The
reason strings are abbreviated relative to the Python f-strings (which quote
the offending word/pattern); the `"Allowed"` success value is exact. -/
def is_allowed_tweet (text : Str) : Bool × String :=
  let lower_text := pyStrip (pyLower text)
  let reasons : List String :=
    (match blocked_keywords.find? (fun w => isSubstring w lower_text) with
     | some w => ["blocked keyword: " ++ w.asString]
     | none => []) ++
    (if threadPatternHit lower_text then ["thread pattern"] else []) ++
    (if ["http".toList, ['@'], ['#']].any (fun x => isSubstring x lower_text)
     then ["contains link/mention/hashtag"] else []) ++
    (if buggySymbolHit text then ["contains disallowed symbols"] else []) ++
    (match personal_words.find? (fun w => personalWordHit w none lower_text) with
     | some w => ["personal word: " ++ w.asString]
     | none => []) ++
    (if lower_text.head? = some '@' then ["reply-style tweet"] else [])
  if reasons.isEmpty then (true, "Allowed")
  else (false, String.intercalate "; " reasons)

/-!
## Enhancement stage: `enhance_tweet_with_ai` (x-bot.py lines 454-493).

The generative-text service is an oracle `Nat → Option Str`: attempt `i`
either raises (`none`, the `except` branch) or returns the message content
(`some resp`, to which the code applies `.strip()`).  The function returns
`(final_text, ai_used, marked)` where `marked` records whether
`update_ai_parsed_status(feed, text, True)` was called for the source item.
-/

/-- The acceptance test of line 480: strictly under the platform limit,
strictly longer than 10, and case-insensitively different from the input. -/
def validEnhanced (text enhanced : Str) : Bool :=
  decide (enhanced.length < X_CHAR_LIMIT) && decide (enhanced.length > 10) &&
    !(pyLower enhanced == pyLower text)

/-- The retry loop of lines 471-488: attempt `i`, with `n` attempts left. -/
def enhanceLoop (text : Str) (oracle : Nat → Option Str) : Nat → Nat → Str × Bool × Bool
  | _, 0 =>
    -- attempts exhausted (line 490-493): deterministic fallback, mark enhanced
    (truncate_and_format text, false, true)
  | i, n + 1 =>
    match oracle i with
    | some resp =>
      let enhanced := pyStrip resp
      if validEnhanced text enhanced then (enhanced, true, true)
      else enhanceLoop text oracle (i + 1) n
    | none => enhanceLoop text oracle (i + 1) n

/-- `enhance_tweet_with_ai` (x-bot.py lines 454-493).  `hasClient` models
`client_ai` being initialized; `attempts` models `AI_RETRY_ATTEMPTS`. -/
def enhance_tweet_with_ai (hasClient : Bool) (text : Str) (oracle : Nat → Option Str)
    (attempts : Nat) : Str × Bool × Bool :=
  if !hasClient then (truncate_and_format text, false, true)
  else enhanceLoop text oracle 0 attempts

/-!
## Risk assessment stage: `assess_block_risk` (x-bot.py lines 247-279) and
its response parsing (lines 269-272).
-/

/-- Case-insensitive literal prefix: `pat` (given lowercase) is a prefix of
`s` up to `Char.toLower`. -/
def ciPrefix (pat : Str) (s : Str) : Bool := (s.take pat.length).map Char.toLower == pat

/-- Digits-to-number (the value `float(...)` reads from the capture). -/
def digitsToNat (ds : Str) : Nat :=
  ds.foldl (fun a c => a * 10 + (c.toNat - '0'.toNat)) 0

/-- `SCORE:\s*(\d+(?:\.\d+)?)/10` matching at the current position
(`re.IGNORECASE`): the literal `SCORE:`, whitespace, an integer part, an
optional fractional part, then the literal `/10`.  `\s*` then `\d+` needs no
backtracking (whitespace and digits are disjoint); `\d+` is maximal because a
shorter integer part would have to be followed by a digit, which can start
neither `\.\d+` nor `/10`; if `.` is present but `\.\d+` followed by `/10`
fails, the regex backtracks to the variant without the fractional part. -/
def matchScoreAt (s : Str) : Option ℚ :=
  if ciPrefix "score:".toList s then
    let r2 := (s.drop 6).dropWhile isPySpace
    let ds := r2.takeWhile Char.isDigit
    if ds.isEmpty then none
    else
      let r3 := r2.drop ds.length
      let intPart : ℚ := (digitsToNat ds : ℚ)
      match r3 with
      | '.' :: r4 =>
        let fs := r4.takeWhile Char.isDigit
        if !fs.isEmpty && "/10".toList.isPrefixOf (r4.drop fs.length) then
          some (intPart + (digitsToNat fs : ℚ) / ((10 : ℚ) ^ fs.length))
        else if "/10".toList.isPrefixOf r3 then some intPart
        else none
      | _ => if "/10".toList.isPrefixOf r3 then some intPart else none
  else none

/-- `re.search` for the score pattern: try every position, left to right. -/
def parseScore : Str → Option ℚ
  | [] => none
  | c :: t => (matchScoreAt (c :: t)).orElse fun _ => parseScore t

/-- `SUGGESTION:\s*(.+)` matching at the current position (`re.IGNORECASE`),
followed by `.group(1).strip()` (line 272).  After the literal, greedy `\s*`
takes the maximal whitespace run of length `k`.  If a character follows the
run, it is non-whitespace (hence not a newline) and `(.+)` captures from
there to the end of the line; the capture is then stripped.  If the run
reaches the end of the string, the regex backtracks `\s*` until `(.+)` can
start on a non-newline character: the capture is then pure whitespace and
strips to the empty string; if every remaining character is a newline, the
match fails at this position. -/
def matchSuggAt (s : Str) : Option Str :=
  if ciPrefix "suggestion:".toList s then
    let rest := s.drop 11
    let k := (rest.takeWhile isPySpace).length
    if k < rest.length then
      some (pyStrip ((rest.drop k).takeWhile (fun c => !(c = '\n'))))
    else if rest.any (fun c => !(c = '\n')) then some []
    else none
  else none

/-- `re.search` for the suggestion pattern: try every position. -/
def parseSuggestion : Str → Option Str
  | [] => none
  | c :: t => (matchSuggAt (c :: t)).orElse fun _ => parseSuggestion t

/-- The retry loop of `assess_block_risk` (x-bot.py lines 260-279): the
oracle gives attempt `i`'s outcome (`none` = the API call raised).  On the
first obtained response, the score is the parsed number or the default 5.0
(line 270) and the suggestion is the parsed text or `"None"` (line 272).
When every attempt raises, the loop falls through to line 279. -/
def assessLoop (oracle : Nat → Option Str) : Nat → Nat → ℚ × Str
  | _, 0 => (5, "Assessment failed".toList)
  | i, n + 1 =>
    match oracle i with
    | some resp => ((parseScore resp).getD 5, (parseSuggestion resp).getD "None".toList)
    | none => assessLoop oracle (i + 1) n

/-- `assess_block_risk` (x-bot.py lines 247-279). -/
def assess_block_risk (hasClient : Bool) (oracle : Nat → Option Str)
    (attempts : Nat) : ℚ × Str :=
  if !hasClient then (0, "AI unavailable".toList)
  else assessLoop oracle 0 attempts

/-!
## Durable log store: `_atomic_json_append` (x-bot.py lines 284-300).

The fallible steps are modelled by oracles: `readOk` (the `json.load` of the
current array, lines 288-290), `writeOk` (the `json.dump` into the temp file
inside `with os.fdopen(temp_fd, ...)`, lines 292-293) and `move` (the
`shutil.move` replace, line 294).  The `except` branch (lines 296-300) runs
`os.close(temp_fd)`, then `os.unlink(temp_path)`, then re-raises.  CPython
semantics that the model encodes:

* leaving a `with os.fdopen(temp_fd, ...)` block — normally or via an
  exception — closes `temp_fd`;
* `os.close` on an already-closed descriptor raises `OSError` (EBADF), so
  when the failure happens at or after the `with` block, the handler's
  `os.close(temp_fd)` itself raises, the `os.unlink` line is never reached,
  and the `OSError` propagates to the caller instead of the original error;
* the temp file is created by `tempfile.mkstemp(suffix=".json")` in the
  DEFAULT temp directory, not next to `logs/<file>`, so the `os.rename`
  inside `shutil.move` can fail with EXDEV (cross-device link); `shutil.move`
  catches any `OSError` from `os.rename` and falls back to
  `copy2(src, dst)` + `os.unlink(src)`.  `copy2` opens the destination with
  mode `wb` — truncating it — and writes it non-atomically, so an
  interrupted fallback copy leaves the target as a byte-prefix of the new
  serialization, and a failure of the trailing `unlink` leaves the target
  fully replaced while `shutil.move` still raises.

The result is `(error?, target file state, temp file removed?)`.
-/

/-- The error surfaced to the caller of `_atomic_json_append`. -/
inductive FsErr
  | readFailed
  | badFileDescriptor
  deriving DecidableEq, Repr

/-- The observable content of the target log file. -/
inductive TargetState (α : Type)
  /-- A completely serialized JSON array with these entries. -/
  | array (entries : List α)
  /-- A proper byte-prefix of the serialization of `intended`: the state an
  interrupted fallback copy leaves behind (not a parseable array). -/
  | truncated (intended : List α)
  deriving DecidableEq, Repr

/-- Outcome of `shutil.move(temp_path, log_file)` (line 294). -/
inductive MoveResult
  /-- `os.rename` succeeded (same filesystem): atomic replace. -/
  | renameOk
  /-- `os.rename` raised; the `copy2` + `unlink` fallback completed:
  the target is replaced and the temp file is gone, no error. -/
  | fallbackOk
  /-- `os.rename` raised and opening the destination for the fallback copy
  failed: the target is unchanged. -/
  | fallbackOpenFail
  /-- `os.rename` raised and the fallback copy was interrupted after the
  destination was opened (truncated) and partially written. -/
  | fallbackCopyFail
  /-- `os.rename` raised, the fallback copy completed, but removing the
  source raised: the target is fully replaced, yet `shutil.move` raises. -/
  | fallbackUnlinkFail
  deriving DecidableEq, Repr

/-- `_atomic_json_append` (x-bot.py lines 284-300) over a pre-state `pre`
(the target file's current array). -/
def atomic_json_append {α : Type} (pre : List α) (entry : α)
    (readOk writeOk : Bool) (move : MoveResult) :
    Option FsErr × TargetState α × Bool :=
  -- tempfile.mkstemp: temp file created in the default temp dir, temp_fd open
  if !readOk then
    -- json.load raises; temp_fd is still open, so the handler's
    -- os.close succeeds, os.unlink removes the temp file, and the original
    -- error is re-raised (line 300)
    (some .readFailed, .array pre, true)
  else
    -- data = pre; data.append(entry); with os.fdopen(temp_fd): json.dump
    if !writeOk then
      -- json.dump raises; the with-block has closed temp_fd, so
      -- os.close(temp_fd) raises EBADF and os.unlink never runs
      (some .badFileDescriptor, .array pre, false)
    else
      -- temp file now holds pre ++ [entry]; temp_fd closed by the with-block
      match move with
      | .renameOk => (none, .array (pre ++ [entry]), true)
      | .fallbackOk => (none, .array (pre ++ [entry]), true)
      | .fallbackOpenFail =>
        -- shutil.move raises before touching the target; the cleanup's
        -- os.close raises EBADF, so the temp file stays behind
        (some .badFileDescriptor, .array pre, false)
      | .fallbackCopyFail =>
        -- the target was truncated and partially rewritten before the copy
        -- raised; cleanup raises EBADF as above
        (some .badFileDescriptor, .truncated (pre ++ [entry]), false)
      | .fallbackUnlinkFail =>
        -- the target is fully replaced, but shutil.move raises on unlink
        -- and the cleanup raises EBADF; the temp file stays behind
        (some .badFileDescriptor, .array (pre ++ [entry]), false)

/-!
## Dedup index: `get_all_processed_tweets` (x-bot.py lines 324-342) and
`get_today_posts_count` (lines 344-358).

Records carry `eatDay`, the calendar day of their timestamp converted to the
fixed UTC+3 timezone (`ts.astimezone(eat).date()`), as an abstract integer
day index.
-/

/-- One entry of `logs/posted_log.json` (see `log_posted_tweet`,
x-bot.py lines 302-314). -/
structure PostedEntry where
  original : Str
  posted : Str
  tweetId : Str
  aiUsed : Bool
  eatDay : ℤ
  deriving DecidableEq, Repr

/-- One entry of `logs/skipped_tweets.json` (see `log_skipped_tweet`,
x-bot.py lines 316-322). -/
structure SkippedEntry where
  tweet : Str
  reason : String
  eatDay : ℤ
  deriving DecidableEq, Repr

/-- `get_all_processed_tweets` (x-bot.py lines 324-342): every posted
record's original text (any day), plus every skipped record's text whose
timestamp falls on `today` in UTC+3.  The Python `set` is modelled as the
list of added elements (membership is what every caller uses). -/
def get_all_processed_tweets (posted : List PostedEntry)
    (skipped : List SkippedEntry) (today : ℤ) : List Str :=
  let s1 := posted.foldl (fun acc d => d.original :: acc) []
  skipped.foldl (fun acc d => if d.eatDay = today then d.tweet :: acc else acc) s1

/-- `get_today_posts_count` (x-bot.py lines 344-358). -/
def get_today_posts_count (posted : List PostedEntry) (today : ℤ) : Nat :=
  posted.countP (fun e => e.eatDay = today)

/-!
## Pipeline orchestrator: `main` (x-bot.py lines 573-778).

Three loops are modelled, in the order the code runs them:

* the pre-filter loop over shuffled unprocessed items (lines 649-669);
* the AI-processing loop over filtered candidates with the shared per-run
  request budget (lines 678-722);
* the posting loop over the first `max_posts` postable tweets
  (lines 730, 754-771).

Each loop yields one trace per input element, recording the decision taken
and the durable-log records written for it.  External effects are oracles:
`enh i` is the pair `(final_text, ai_used)` returned by
`enhance_tweet_with_ai` for the `i`-th processed candidate, `risk i` the
score returned by `assess_block_risk`, and `post j` the tweet id returned by
`post_tweet` for the `j`-th posting slot (`none` = all retries failed).
-/

/-- The configuration values of `main` that the loops read
(x-bot.py lines 81, 99-107). -/
structure Config where
  postsPerRun : Nat        -- POSTS_PER_RUN
  dailyPostLimit : Nat     -- DAILY_POST_LIMIT
  maxAiPerRun : Nat        -- MAX_AI_REQUESTS_PER_RUN
  blockRiskThreshold : ℚ   -- BLOCK_RISK_THRESHOLD (10.0 = disabled)
  dryRun : Bool            -- DRY_RUN

/-- A record appended to a durable log: a skipped-log entry
(`log_skipped_tweet`) or a posted-log entry (`log_posted_tweet`). -/
inductive Rec
  | skip (text : Str) (reason : String)
  | post (original : Str) (finalText : Str) (tweetId : Str) (aiUsed : Bool)
  deriving DecidableEq, Repr

/-- Is the record a skipped-log record. -/
def Rec.isSkipRec : Rec → Bool
  | .skip _ _ => true
  | _ => false

/-- Is the record a posted-log record. -/
def Rec.isPostRec : Rec → Bool
  | .post _ _ _ _ => true
  | _ => false

/-- A stored item entering the run: its text and its `ai_parsed` flag from
the source cache (`load_stored_tweets`, x-bot.py line 444). -/
structure Cand where
  text : Str
  aiParsed : Bool
  deriving DecidableEq, Repr

/-- Trace of one item through the pre-filter loop: `out` is the surviving
candidate (with possibly truncated text), `none` when skipped.  `issued` is
the sequence of durable-log appends the iteration ISSUES (the
`log_skipped_tweet` calls it makes); whether an issued append actually lands
in the durable log is modelled separately by `durableRecs`, because
`log_skipped_tweet` (x-bot.py lines 318-322) swallows append failures. -/
structure S1Trace where
  item : Cand
  out : Option Cand
  issued : List Rec
  deriving DecidableEq, Repr

/-- STEP 2 of the pre-filter loop (x-bot.py lines 663-669): the basic
filter check; on failure the (possibly truncated) text is logged. -/
def preFilterCheck (orig t : Cand) : S1Trace :=
  if (is_allowed_tweet t.text).1 then ⟨orig, some t, []⟩
  else ⟨orig, none, [.skip t.text (is_allowed_tweet t.text).2]⟩

/-- One iteration of the pre-filter loop (x-bot.py lines 650-669): length
check and truncation first (the skip there logs the original text), then the
filter check on the resulting text. -/
def preFilterStep (item : Cand) : S1Trace :=
  if item.text.length > X_CHAR_LIMIT then
    let truncated := truncate_and_format item.text
    if truncated.length > X_CHAR_LIMIT then
      ⟨item, none, [.skip item.text "too long even after truncation"]⟩
    else preFilterCheck item ⟨truncated, item.aiParsed⟩
  else preFilterCheck item item

/-- Decision for one candidate of the AI-processing loop. -/
inductive S2Dec
  | aiSkipped
  | postable (finalText : Str) (aiUsed : Bool)
  | notProcessed
  deriving DecidableEq, Repr

/-- Trace of one candidate through the AI-processing loop.  `flagOut` is the
candidate's `ai_parsed` flag in the source cache after the iteration: every
branch of the loop body marks it `True` (either inside
`enhance_tweet_with_ai`, lines 458/481/492, or explicitly at lines 699, 706
and 716), while a candidate left behind by the budget `break` keeps its
stored flag.  `issued` is the sequence of skipped-log appends the iteration
issues; durable landing is modelled by `durableRecs` (the `log_skipped_tweet`
caller swallows append failures, lines 318-322). -/
structure S2Trace where
  cand : Cand
  dec : S2Dec
  issued : List Rec
  flagOut : Bool
  deriving DecidableEq, Repr

/-- The body of the AI-processing loop (x-bot.py lines 692-722) for one
candidate, given the enhancement result and the risk score, returning the
trace and the updated `ai_requests_used`. -/
def aiStep (cfg : Config) (enhRes : Str × Bool) (score : ℚ) (used : Nat)
    (c : Cand) : S2Trace × Nat :=
  let final := enhRes.1
  let used1 := used + 1    -- line 693: count the enhancement call
  if final.length > X_CHAR_LIMIT then
    (⟨c, .aiSkipped, [.skip final "still too long after enhancement"], true⟩, used1)
  else if !(is_allowed_tweet final).1 then
    (⟨c, .aiSkipped,
      [.skip final ("failed filter after AI: " ++ (is_allowed_tweet final).2)], true⟩, used1)
  else if cfg.blockRiskThreshold < 10 && used1 < cfg.maxAiPerRun then
    let used2 := used1 + 1    -- line 712: count the risk-assessment call
    if score > cfg.blockRiskThreshold then
      (⟨c, .aiSkipped, [.skip final "High block risk"], true⟩, used2)
    else (⟨c, .postable final enhRes.2, [], true⟩, used2)
  else (⟨c, .postable final enhRes.2, [], true⟩, used1)

/-- The AI-processing loop (x-bot.py lines 682-722): `i` is the next oracle
index, `used` the running `ai_requests_used`.  When the budget is already
spent the loop `break`s (line 687) and the remaining candidates are left
with their stored flag. -/
def aiLoop (cfg : Config) (enh : Nat → Str × Bool) (risk : Nat → ℚ) :
    List Cand → Nat → Nat → List S2Trace × Nat
  | [], _, used => ([], used)
  | c :: rest, i, used =>
    if cfg.maxAiPerRun ≤ used then
      ((c :: rest).map fun x => ⟨x, .notProcessed, [], x.aiParsed⟩, used)
    else
      let su := aiStep cfg (enh i) (risk i) used c
      let ts := aiLoop cfg enh risk rest (i + 1) su.2
      (su.1 :: ts.1, ts.2)

/-- A ready-to-post tweet as appended at x-bot.py line 721:
`(final_text, ai_used, tweet, feed)`. -/
structure Postable where
  original : Str
  finalText : Str
  aiUsed : Bool
  deriving DecidableEq, Repr

/-- The postable payload of an AI-loop trace. -/
def postableOf (t : S2Trace) : Option Postable :=
  match t.dec with
  | .postable f aiU => some ⟨t.cand.text, f, aiU⟩
  | _ => none

/-- Decision for one postable tweet in the posting loop. -/
inductive S3Dec
  | posted (id : Str)
  | dryPosted
  | postFailed
  | notAttempted
  deriving DecidableEq, Repr

/-- Trace of one postable tweet through the posting loop. -/
structure S3Trace where
  p : Postable
  dec : S3Dec
  issued : List Rec
  deriving DecidableEq, Repr

/-- One iteration of the posting loop (x-bot.py lines 756-771): in dry-run
mode `post_tweet` returns the sentinel `"dry-run"` and a posted-log append
is issued; a successful post issues one append and a failure issues nothing
(`log_posted_tweet`, lines 310-314, swallows append failures, so issued
appends land durably only per `durableRecs`). -/
def postStep (dryRun : Bool) (outcome : Option Str) (p : Postable) : S3Trace :=
  if dryRun then
    ⟨p, .dryPosted, [.post p.original p.finalText "dry-run".toList p.aiUsed]⟩
  else
    match outcome with
    | some id => ⟨p, .posted id, [.post p.original p.finalText id p.aiUsed]⟩
    | none => ⟨p, .postFailed, []⟩

/-- The posting loop (x-bot.py lines 754-771) over
`postable_tweets[:max_posts]`: `j` is the next post-oracle index, `fuel` the
remaining slots of the `max_posts` slice; tweets beyond the slice are never
attempted. -/
def postLoop (dryRun : Bool) (post : Nat → Option Str) :
    List Postable → Nat → Nat → List S3Trace
  | [], _, _ => []
  | p :: rest, _, 0 => (p :: rest).map fun x => ⟨x, .notAttempted, []⟩
  | p :: rest, j, fuel + 1 => postStep dryRun (post j) p :: postLoop dryRun post rest (j + 1) fuel

/-- Did this iteration increment `posts_attempted` (lines 761 and 768)? -/
def S3Trace.attempted (t : S3Trace) : Bool :=
  match t.dec with
  | .posted _ => true
  | .dryPosted => true
  | _ => false

/-- The observable outcome of one run of `main`. -/
structure RunResult where
  s1 : List S1Trace
  s2 : List S2Trace
  aiUsed : Nat
  postables : List Postable
  s3 : List S3Trace

/-- One run of `main` (x-bot.py lines 573-778), from the daily-limit fast
path (lines 600-603) through the pre-filter, AI-processing and posting
loops.  `todayPosts` is `get_today_posts_count()` at run start; `authOk`
models the single per-run auth check (lines 734-751) whose failure skips the
whole posting loop. -/
def runAll (cfg : Config) (todayPosts : Nat) (enh : Nat → Str × Bool)
    (risk : Nat → ℚ) (post : Nat → Option Str) (authOk : Bool)
    (items : List Cand) : RunResult :=
  if cfg.dailyPostLimit ≤ todayPosts then ⟨[], [], 0, [], []⟩
  else
    let s1 := items.map preFilterStep
    let cands := s1.filterMap (·.out)
    let s2u := aiLoop cfg enh risk cands 0 0
    let ps := s2u.1.filterMap postableOf
    -- line 730: max_posts = min(POSTS_PER_RUN, DAILY_POST_LIMIT - today_posts,
    -- len(postable_tweets))
    let maxPosts := min cfg.postsPerRun (min (cfg.dailyPostLimit - todayPosts) ps.length)
    let s3 := if authOk then postLoop cfg.dryRun post ps 0 maxPosts else []
    ⟨s1, s2u.1, s2u.2, ps, s3⟩

/-- `posts_attempted` at the end of the run (x-bot.py lines 754-771). -/
def postsAttempted (r : RunResult) : Nat := r.s3.countP fun t => t.attempted

/-- What an issued append contributes to its durable log.
`log_posted_tweet` and `log_skipped_tweet` (x-bot.py lines 302-322) wrap the
single `_atomic_json_append` call in `try/except`: on success the log gains
the entry, on failure the raised error is only logged and execution
continues with the durable log unchanged — the decision goes unrecorded.
`ok` is the append's success. -/
def durableRecs (ok : Bool) (issued : List Rec) : List Rec :=
  if ok then issued else []

/-- The durable log a whole stage leaves behind: the concatenation, in
iteration order, of each trace's issued appends that actually landed
(`persist i` is the success of the `i`-th iteration's append). -/
def durableConcat (persist : Nat → Bool) : List (List Rec) → Nat → List Rec
  | [], _ => []
  | rs :: rest, i => durableRecs (persist i) rs ++ durableConcat persist rest (i + 1)

/-- No sentence break from `prev` onward: nowhere is one of `.`, `!`, `?`
immediately followed by a whitespace character (the split pattern of
`truncate_and_format`). -/
def noSentenceBreakFrom : Option Char → Str → Bool
  | _, [] => true
  | p, c :: t => !(isSentEnd p && isPySpace c) && noSentenceBreakFrom (some c) t

/-- One enhancement attempt that does not produce an accepted candidate:
either the API call raised, or the (stripped) output fails the validity
test of line 480. -/
def failedOrInvalid (text : Str) : Option Str → Bool
  | none => true
  | some r => !validEnhanced text (pyStrip r)

/-!
# Theorems

One theorem per claim of the specification review, with shared helper
lemmas.  C&lt;n&gt; names refer to the claim list.  First, sanity evaluations of
the embedded functions on concrete inputs.
-/

example : truncate_and_format "Hello there. This is fine.".toList
    = "Hello there.\nThis is fine.".toList := by decide

example : truncate_and_format (List.replicate 300 'a') = [] := by decide

example : (is_allowed_tweet "Markets consolidate quietly.".toList).1 = true := by decide

example : is_allowed_tweet "Join us tomorrow!".toList
    = (false, "blocked keyword: join us") := by decide

example : (is_allowed_tweet "a$]b".toList).1 = false := by decide

example : (is_allowed_tweet "price is $99 now".toList).1 = true := by decide

example : parseScore "SCORE: 7/10\nSUGGESTION: None".toList = some 7 := by decide

example : (parseScore "a Score: 3.5/10 b".toList).isSome = true := by decide

example : parseScore "SCORE: 3./10".toList = none := by decide

example : parseScore "SCORE: x/10".toList = none := by decide

example : parseSuggestion "SUGGESTION: fix the wording \n more".toList
    = some "fix the wording".toList := by decide

example : assessLoop (fun _ => some "hello".toList) 0 3 = (5, "None".toList) := by decide

example : assessLoop (fun _ => none) 0 3 = (5, "Assessment failed".toList) := by decide

/-- `truncate_and_format` never returns more than `X_CHAR_LIMIT` characters
(on any input): either the joined result is within `X_CHAR_LIMIT - 3`, or it
is hard-truncated to `X_CHAR_LIMIT - 3` characters plus a 3-character
ellipsis. -/
theorem truncate_and_format_length_le (t : Str) :
    (truncate_and_format t).length ≤ X_CHAR_LIMIT := by
  unfold truncate_and_format
  dsimp only
  split
  · have h3 : ("...".toList).length = 3 := rfl
    simp only [List.length_append, List.length_take, h3, X_CHAR_LIMIT]
    omega
  · simp only [X_CHAR_LIMIT] at *
    omega

/-- C8: for every text `T` longer than the 280-character limit,
`truncate_and_format T` (split into sentences at sentence-ending punctuation
followed by whitespace, greedily accumulate whole sentences — each counting
its length plus one separator — while the running total stays within
`limit - 3`, join with line breaks, and hard-truncate to `limit - 3`
characters plus an ellipsis if still over) has length at most 280. -/
theorem C8_truncate_and_format_bounded (t : Str) (_h : X_CHAR_LIMIT < t.length) :
    (truncate_and_format t).length ≤ X_CHAR_LIMIT :=
  truncate_and_format_length_le t

/-- Witness for C8 at a concrete 300-character input. -/
theorem C8_truncate_and_format_bounded_witness :
    X_CHAR_LIMIT < (List.replicate 300 'a').length ∧
      (truncate_and_format (List.replicate 300 'a')).length ≤ X_CHAR_LIMIT :=
  ⟨by decide, C8_truncate_and_format_bounded (List.replicate 300 'a') (by decide)⟩

/-- C5 (code bug): the text `price is $99 now` contains `$`, a character
outside the allowed symbol class (word characters, whitespace and
`, . ' " ! ? -`), yet `is_allowed_tweet` accepts it.  Interpolating
`allow_symbols = r"[\w\s,.'\"!?-]"` into `rf"[^{allow_symbols}]"` (line 229)
doubles the brackets, so the compiled regex `[^[\w\s,.'\"!?-]]` only fires
on a disallowed character that is immediately followed by a literal `]`
(and additionally treats `[` as allowed). -/
theorem C5_symbol_filter_bug :
    (∃ c ∈ "price is $99 now".toList, allowedSymbol c = false) ∧
      is_allowed_tweet "price is $99 now".toList = (true, "Allowed") := by
  exact ⟨⟨'$', by decide, by decide⟩, by decide⟩

/-- When no sentence break occurs, `splitAux` returns the whole text as a
single sentence. -/
theorem splitAux_no_break (cs : Str) : ∀ (p : Option Char) (acc : Str),
    noSentenceBreakFrom p cs = true →
    splitAux cs false p acc = [acc.reverse ++ cs] := by
  induction cs with
  | nil => intro p acc _; simp [splitAux]
  | cons c t ih =>
    intro p acc h
    simp only [noSentenceBreakFrom, Bool.and_eq_true, Bool.not_eq_eq_eq_not,
      Bool.not_true] at h
    simp [splitAux, h.1, ih (some c) (c :: acc) h.2]

/-- A break-free stripped text of length at least `X_CHAR_LIMIT - 3` makes
the greedy loop of `truncate_and_format` stop before its first (and only)
sentence, so the function returns the empty string. -/
theorem truncate_no_break_long (t : Str)
    (hb : noSentenceBreakFrom none (pyStrip t) = true)
    (hl : X_CHAR_LIMIT - 3 ≤ (pyStrip t).length) :
    truncate_and_format t = [] := by
  unfold truncate_and_format splitSentences
  rw [splitAux_no_break _ none [] hb]
  have hgt : X_CHAR_LIMIT - 3 < (pyStrip t).length + 1 := by
    simp only [X_CHAR_LIMIT] at hl ⊢; omega
  simp [greedyTake, hgt, List.intercalate]

/-- C10 counterexample: 274 letters followed by 3 spaces has length 277 and
contains no sentence break, yet `truncate_and_format` returns a non-empty
string (stripping removes the trailing spaces, so the single sentence has
length 274 and fits).  The claim's threshold must be read on the stripped
text. -/
theorem C10_counterexample :
    (List.replicate 274 'a' ++ List.replicate 3 ' ').length = 277 ∧
      noSentenceBreakFrom none (List.replicate 274 'a' ++ List.replicate 3 ' ') = true ∧
      truncate_and_format (List.replicate 274 'a' ++ List.replicate 3 ' ') ≠ [] := by
  refine ⟨by decide, by decide, by decide⟩

/-- C10 (amended): for every input whose stripped text contains no sentence
break and has length at least `X_CHAR_LIMIT - 3 = 277`, `truncate_and_format`
returns the empty string; and when such an input is longer than the
280-character limit, the pre-filter loop truncates it to that empty string,
which passes the length check and `is_allowed_tweet` and continues as a
candidate (no skip record). -/
theorem C10_empty_truncation_passes (t : Str) (flag : Bool)
    (hb : noSentenceBreakFrom none (pyStrip t) = true)
    (hl : X_CHAR_LIMIT - 3 ≤ (pyStrip t).length)
    (hlong : X_CHAR_LIMIT < t.length) :
    truncate_and_format t = [] ∧
      preFilterStep ⟨t, flag⟩ = ⟨⟨t, flag⟩, some ⟨[], flag⟩, []⟩ := by
  have he := truncate_no_break_long t hb hl
  refine ⟨he, ?_⟩
  unfold preFilterStep
  have hgt : (⟨t, flag⟩ : Cand).text.length > X_CHAR_LIMIT := hlong
  rw [if_pos hgt]
  simp only [he]
  have hz : ([] : Str).length > X_CHAR_LIMIT → False := by simp [X_CHAR_LIMIT]
  rw [if_neg hz]
  have hall : (is_allowed_tweet ([] : Str)).1 = true := by decide
  simp [preFilterCheck, hall]

/-- Witness for the amended C10 at a concrete 281-character input. -/
theorem C10_empty_truncation_passes_witness :
    truncate_and_format (List.replicate 281 'a') = [] ∧
      preFilterStep ⟨List.replicate 281 'a', false⟩
        = ⟨⟨List.replicate 281 'a', false⟩, some ⟨[], false⟩, []⟩ :=
  C10_empty_truncation_passes (List.replicate 281 'a') false
    (by decide) (by decide) (by decide)

/-- C9 counterexample: the response `hello` is obtained from the service but
carries no parseable numeric score; `assess_block_risk` returns the midpoint
score 5.0 with suggestion `None` — not `Assessment failed`, which is
returned only when every attempt raises. -/
theorem C9_counterexample :
    parseScore "hello".toList = none ∧
      assess_block_risk true (fun _ => some "hello".toList) 3 = (5, "None".toList) ∧
      "None".toList ≠ "Assessment failed".toList := by
  refine ⟨by decide, by decide, by decide⟩

/-- The assessment loop, started at index `s`, returns the parsed result of
the first obtained response. -/
theorem assessLoop_first_some (oracle : Nat → Option Str) (resp : Str) :
    ∀ (i s n : Nat), i < n → (∀ j, j < i → oracle (s + j) = none) →
    oracle (s + i) = some resp →
    assessLoop oracle s n
      = ((parseScore resp).getD 5, (parseSuggestion resp).getD "None".toList) := by
  intro i
  induction i with
  | zero =>
    intro s n hn hfirst hresp
    obtain ⟨m, rfl⟩ := Nat.exists_eq_succ_of_ne_zero (Nat.pos_iff_ne_zero.mp hn)
    simp only [Nat.add_zero] at hresp
    simp [assessLoop, hresp]
  | succ i ih =>
    intro s n hn hfirst hresp
    obtain ⟨m, rfl⟩ := Nat.exists_eq_succ_of_ne_zero
      (Nat.pos_iff_ne_zero.mp (Nat.lt_of_le_of_lt (Nat.zero_le _) hn))
    have h0 : oracle s = none := by simpa using hfirst 0 (Nat.succ_pos i)
    have step : assessLoop oracle s (m + 1) = assessLoop oracle (s + 1) m := by
      simp [assessLoop, h0]
    rw [step]
    refine ih (s + 1) m (Nat.lt_of_succ_lt_succ hn) ?_ ?_
    · intro j hj
      have := hfirst (j + 1) (Nat.succ_lt_succ hj)
      simpa [Nat.add_assoc, Nat.add_comm 1 j] using this
    · simpa [Nat.add_assoc, Nat.add_comm 1 i] using hresp

/-- The assessment loop returns the `Assessment failed` default when every
attempt raises. -/
theorem assessLoop_all_none (oracle : Nat → Option Str) :
    ∀ (n s : Nat), (∀ j, j < n → oracle (s + j) = none) →
    assessLoop oracle s n = (5, "Assessment failed".toList) := by
  intro n
  induction n with
  | zero => intro s _; rfl
  | succ m ih =>
    intro s h
    have h0 : oracle s = none := by simpa using h 0 (Nat.succ_pos m)
    have step : assessLoop oracle s (m + 1) = assessLoop oracle (s + 1) m := by
      simp [assessLoop, h0]
    rw [step]
    refine ih (s + 1) ?_
    intro j hj
    have := h (j + 1) (Nat.succ_lt_succ hj)
    simpa [Nat.add_assoc, Nat.add_comm 1 j] using this

/-- C9 (amended): when `assess_block_risk` obtains a response (attempt `i`
succeeds after `i` raised attempts), the returned score is the parsed value
or the midpoint 5.0 when no numeric score can be parsed, and the suggestion
is the parsed suggestion or `None` — not `Assessment failed`.  The pair
`(5.0, "Assessment failed")` is returned exactly when every attempt
raises. -/
theorem C9_parse_failure_defaults :
    (∀ (oracle : Nat → Option Str) (n i : Nat) (resp : Str), i < n →
      (∀ j, j < i → oracle j = none) → oracle i = some resp →
      parseScore resp = none →
      assess_block_risk true oracle n
        = (5, (parseSuggestion resp).getD "None".toList)) ∧
    (∀ (oracle : Nat → Option Str) (n : Nat), (∀ j, j < n → oracle j = none) →
      assess_block_risk true oracle n = (5, "Assessment failed".toList)) := by
  constructor
  · intro oracle n i resp hn hfirst hresp hparse
    have h := assessLoop_first_some oracle resp i 0 n hn
      (by simpa using hfirst) (by simpa using hresp)
    simpa [assess_block_risk, hparse] using h
  · intro oracle n h
    have := assessLoop_all_none oracle n 0 (by simpa using h)
    simpa [assess_block_risk] using this

/-- Witness for the amended C9: the second attempt yields an unparseable
response after a raised first attempt. -/
theorem C9_parse_failure_defaults_witness :
    assess_block_risk true
        (fun j => if j = 1 then some "hello".toList else none) 3
      = (5, (parseSuggestion "hello".toList).getD "None".toList) :=
  C9_parse_failure_defaults.1
    (fun j => if j = 1 then some "hello".toList else none) 3 1 "hello".toList
    (by decide) (by decide) (by decide) (by decide)

/-- The acceptance test of line 480, unfolded. -/
theorem validEnhanced_iff (text e : Str) :
    validEnhanced text e = true ↔
      e.length < X_CHAR_LIMIT ∧ 10 < e.length ∧ pyLower e ≠ pyLower text := by
  simp [validEnhanced, and_assoc]

/-- If the retry loop reports `ai_used = true`, the returned text passed the
acceptance test against the input. -/
theorem enhanceLoop_accept (text : Str) (oracle : Nat → Option Str) :
    ∀ (n i : Nat), (enhanceLoop text oracle i n).2.1 = true →
    validEnhanced text (enhanceLoop text oracle i n).1 = true := by
  intro n
  induction n with
  | zero => intro i h; simp [enhanceLoop] at h
  | succ m ih =>
    intro i h
    simp only [enhanceLoop] at h ⊢
    cases ho : oracle i with
    | none =>
      simp only [ho] at h ⊢
      exact ih (i + 1) h
    | some resp =>
      simp only [ho] at h ⊢
      by_cases hv : validEnhanced text (pyStrip resp) = true
      · simp [hv]
      · simp only [Bool.not_eq_true] at hv
        simp only [hv, Bool.false_eq_true, if_false] at h ⊢
        exact ih (i + 1) h

/-- When every attempt fails or is invalid, the retry loop falls through to
the deterministic fallback, reporting `ai_used = false` and marking the
item. -/
theorem enhanceLoop_exhausted (text : Str) (oracle : Nat → Option Str) :
    ∀ (n s : Nat), (∀ j, j < n → failedOrInvalid text (oracle (s + j)) = true) →
    enhanceLoop text oracle s n = (truncate_and_format text, false, true) := by
  intro n
  induction n with
  | zero => intro s _; rfl
  | succ m ih =>
    intro s h
    have h0 := h 0 (Nat.succ_pos m)
    simp only [Nat.add_zero] at h0
    have hsh : ∀ j, j < m → failedOrInvalid text (oracle (s + 1 + j)) = true := by
      intro j hj
      have := h (j + 1) (Nat.succ_lt_succ hj)
      simpa [Nat.add_assoc, Nat.add_comm 1 j] using this
    cases ho : oracle s with
    | none =>
      simp only [enhanceLoop, ho]
      exact ih (s + 1) hsh
    | some resp =>
      rw [ho] at h0
      simp only [failedOrInvalid, Bool.not_eq_eq_eq_not, Bool.not_true] at h0
      simp only [enhanceLoop, ho, h0, Bool.false_eq_true, if_false]
      exact ih (s + 1) hsh

/-- C7: `enhance_tweet_with_ai` reports `ai_used = true` only for an output
that is strictly shorter than the 280-character limit, strictly longer than
10 characters, and case-insensitively different from the input; and when the
AI client is absent, or every attempt raises or produces invalid output, it
returns the deterministic `truncate_and_format` of the input with
`ai_used = false` while still marking the source item's `ai_parsed` flag
true. -/
theorem C7_enhancement_contract :
    (∀ (hasClient : Bool) (text : Str) (oracle : Nat → Option Str) (n : Nat),
      (enhance_tweet_with_ai hasClient text oracle n).2.1 = true →
      (enhance_tweet_with_ai hasClient text oracle n).1.length < X_CHAR_LIMIT ∧
        10 < (enhance_tweet_with_ai hasClient text oracle n).1.length ∧
        pyLower (enhance_tweet_with_ai hasClient text oracle n).1 ≠ pyLower text) ∧
    (∀ (text : Str) (oracle : Nat → Option Str) (n : Nat),
      enhance_tweet_with_ai false text oracle n
        = (truncate_and_format text, false, true)) ∧
    (∀ (text : Str) (oracle : Nat → Option Str) (n : Nat),
      (∀ i, i < n → failedOrInvalid text (oracle i) = true) →
      enhance_tweet_with_ai true text oracle n
        = (truncate_and_format text, false, true)) := by
  refine ⟨?_, ?_, ?_⟩
  · intro hasClient text oracle n h
    cases hasClient with
    | false => simp [enhance_tweet_with_ai] at h
    | true =>
      simp only [enhance_tweet_with_ai, Bool.not_true, Bool.false_eq_true,
        if_false, ite_false] at h ⊢
      exact (validEnhanced_iff text _).mp (enhanceLoop_accept text oracle n 0 h)
  · intro text oracle n
    simp [enhance_tweet_with_ai]
  · intro text oracle n h
    simp only [enhance_tweet_with_ai, Bool.not_true, Bool.false_eq_true,
      if_false, ite_false]
    exact enhanceLoop_exhausted text oracle n 0 (by simpa using h)

/-- Witness for C7: a single valid AI response is accepted, and the accepted
output satisfies the three acceptance conditions. -/
theorem C7_enhancement_contract_witness :
    (enhance_tweet_with_ai true ['x']
        (fun _ => some "Enhanced tweet content for testing.".toList) 1).1.length
        < X_CHAR_LIMIT ∧
      10 < (enhance_tweet_with_ai true ['x']
        (fun _ => some "Enhanced tweet content for testing.".toList) 1).1.length ∧
      pyLower (enhance_tweet_with_ai true ['x']
        (fun _ => some "Enhanced tweet content for testing.".toList) 1).1
        ≠ pyLower ['x'] :=
  C7_enhancement_contract.1 true ['x']
    (fun _ => some "Enhanced tweet content for testing.".toList) 1 (by decide)

/-- Membership in the posted-log fold. -/
theorem mem_foldl_posted (x : Str) :
    ∀ (l : List PostedEntry) (acc : List Str),
    (x ∈ l.foldl (fun acc d => d.original :: acc) acc ↔
      x ∈ acc ∨ ∃ p ∈ l, p.original = x) := by
  intro l
  induction l with
  | nil => intro acc; simp
  | cons d t ih =>
    intro acc
    rw [List.foldl_cons, ih]
    constructor
    · rintro (hm | ⟨p, hp, hpx⟩)
      · rcases List.mem_cons.mp hm with h | h
        · exact Or.inr ⟨d, List.mem_cons_self d t, h.symm⟩
        · exact Or.inl h
      · exact Or.inr ⟨p, List.mem_cons_of_mem d hp, hpx⟩
    · rintro (hm | ⟨p, hp, hpx⟩)
      · exact Or.inl (List.mem_cons_of_mem _ hm)
      · rcases List.mem_cons.mp hp with h | h
        · subst h; exact Or.inl (List.mem_cons.mpr (Or.inl hpx.symm))
        · exact Or.inr ⟨p, h, hpx⟩

/-- Membership in the skipped-log fold. -/
theorem mem_foldl_skipped (x : Str) (today : ℤ) :
    ∀ (l : List SkippedEntry) (acc : List Str),
    (x ∈ l.foldl (fun acc d => if d.eatDay = today then d.tweet :: acc else acc) acc ↔
      x ∈ acc ∨ ∃ s ∈ l, s.eatDay = today ∧ s.tweet = x) := by
  intro l
  induction l with
  | nil => intro acc; simp
  | cons d t ih =>
    intro acc
    rw [List.foldl_cons]
    by_cases h : d.eatDay = today
    · rw [if_pos h, ih]
      constructor
      · rintro (hm | ⟨s, hs, hsp⟩)
        · rcases List.mem_cons.mp hm with h1 | h1
          · exact Or.inr ⟨d, List.mem_cons_self d t, h, h1.symm⟩
          · exact Or.inl h1
        · exact Or.inr ⟨s, List.mem_cons_of_mem d hs, hsp⟩
      · rintro (hm | ⟨s, hs, hsd, hsx⟩)
        · exact Or.inl (List.mem_cons_of_mem _ hm)
        · rcases List.mem_cons.mp hs with h1 | h1
          · subst h1; exact Or.inl (List.mem_cons.mpr (Or.inl hsx.symm))
          · exact Or.inr ⟨s, h1, hsd, hsx⟩
    · rw [if_neg h, ih]
      constructor
      · rintro (hm | ⟨s, hs, hsp⟩)
        · exact Or.inl hm
        · exact Or.inr ⟨s, List.mem_cons_of_mem d hs, hsp⟩
      · rintro (hm | ⟨s, hs, hsd, hsx⟩)
        · exact Or.inl hm
        · rcases List.mem_cons.mp hs with h1 | h1
          · subst h1; exact absurd hsd h
          · exact Or.inr ⟨s, h1, hsd, hsx⟩

/-- C6: the processed set returned by `get_all_processed_tweets` contains a
text exactly when it is the original text of some posted record (any day) or
the text of some skipped record whose timestamp falls on the current UTC+3
day; skipped records from other days are excluded. -/
theorem C6_processed_set_characterization (posted : List PostedEntry)
    (skipped : List SkippedEntry) (today : ℤ) (x : Str) :
    x ∈ get_all_processed_tweets posted skipped today ↔
      (∃ p ∈ posted, p.original = x) ∨
        ∃ s ∈ skipped, s.eatDay = today ∧ s.tweet = x := by
  unfold get_all_processed_tweets
  rw [mem_foldl_skipped, mem_foldl_posted]
  simp

/-- C4 counterexample, refuting two parts of the claim.  (1) When the write
into the temporary file fails, an error is surfaced but the temporary file
is NOT removed: the `with` block already closed `temp_fd`, so the cleanup's
`os.close(temp_fd)` raises EBADF before the `os.unlink` line.  (2) When the
replace fails with an interrupted fallback copy (`os.rename` raised
cross-device, `copy2` truncated the target then died), a PARTIAL state —
a byte-prefix of the new serialization — is observable in the target while
the error is raised. -/
theorem C4_counterexample :
    ((atomic_json_append ([] : List Nat) 0 true false .renameOk).1.isSome = true ∧
      (atomic_json_append ([] : List Nat) 0 true false .renameOk).2.2 = false) ∧
    ((atomic_json_append ([] : List Nat) 0 true true .fallbackCopyFail).1.isSome
        = true ∧
      (atomic_json_append ([] : List Nat) 0 true true .fallbackCopyFail).2.1
        = .truncated [0]) := by
  refine ⟨⟨by decide, by decide⟩, by decide, by decide⟩

/-- C4 (amended): on success — a same-filesystem rename, or a rename failure
whose copy fallback completes — the target goes from the pre-append array to
the array plus the new entry and the temporary file is gone.  On a read
failure the temporary file is removed, the error is raised and the target is
unchanged.  On a write failure an EBADF error propagates (double close in
the cleanup), the target is unchanged, and the temporary file is left
behind.  On a replace failure an error propagates and the temporary file is
left behind, and the target may be unchanged (the fallback could not open
the destination), left as a truncated prefix of the new serialization (the
fallback copy was interrupted), or fully replaced (the copy completed but
the source unlink failed): on this path partial or replaced-despite-error
states ARE observable, since the temp file lives in the default temp
directory and `shutil.move` falls back to `copy2` + `unlink` across
filesystems. -/
theorem C4_append_outcomes {α : Type} (pre : List α) (entry : α)
    (readOk writeOk : Bool) (move : MoveResult) :
    (readOk = false →
      atomic_json_append pre entry readOk writeOk move
        = (some .readFailed, .array pre, true)) ∧
    (readOk = true → writeOk = false →
      atomic_json_append pre entry readOk writeOk move
        = (some .badFileDescriptor, .array pre, false)) ∧
    (readOk = true → writeOk = true →
      (move = .renameOk ∨ move = .fallbackOk →
        atomic_json_append pre entry readOk writeOk move
          = (none, .array (pre ++ [entry]), true)) ∧
      (move = .fallbackOpenFail →
        atomic_json_append pre entry readOk writeOk move
          = (some .badFileDescriptor, .array pre, false)) ∧
      (move = .fallbackCopyFail →
        atomic_json_append pre entry readOk writeOk move
          = (some .badFileDescriptor, .truncated (pre ++ [entry]), false)) ∧
      (move = .fallbackUnlinkFail →
        atomic_json_append pre entry readOk writeOk move
          = (some .badFileDescriptor, .array (pre ++ [entry]), false))) := by
  refine ⟨?_, ?_, ?_⟩
  · intro h
    simp [atomic_json_append, h]
  · intro h1 h2
    simp [atomic_json_append, h1, h2]
  · intro h1 h2
    refine ⟨?_, ?_, ?_, ?_⟩
    · rintro (rfl | rfl) <;> simp [atomic_json_append, h1, h2]
    · rintro rfl
      simp [atomic_json_append, h1, h2]
    · rintro rfl
      simp [atomic_json_append, h1, h2]
    · rintro rfl
      simp [atomic_json_append, h1, h2]

/-- Witness for the amended C4: the rename-success case at a concrete log. -/
theorem C4_append_outcomes_witness :
    atomic_json_append [1] 2 true true .renameOk
      = (none, .array ([1] ++ [2]), true) :=
  ((C4_append_outcomes [1] 2 true true .renameOk).2.2 rfl rfl).1 (Or.inl rfl)

/-- `aiStep` advances `ai_requests_used` by one, or by two exactly when the
risk branch runs — which requires the counter to still be under the budget
after the enhancement call. -/
theorem aiStep_used (cfg : Config) (e : Str × Bool) (sc : ℚ) (used : Nat)
    (c : Cand) :
    (aiStep cfg e sc used c).2 = used + 1 ∨
      ((aiStep cfg e sc used c).2 = used + 2 ∧ used + 1 < cfg.maxAiPerRun) := by
  unfold aiStep
  dsimp only
  split_ifs with h1 h2 h3 h4
  · exact Or.inl rfl
  · exact Or.inl rfl
  · simp only [Bool.and_eq_true, decide_eq_true_eq] at h3
    exact Or.inr ⟨rfl, h3.2⟩
  · simp only [Bool.and_eq_true, decide_eq_true_eq] at h3
    exact Or.inr ⟨rfl, h3.2⟩
  · exact Or.inl rfl

/-- When the risk stage is disabled (threshold not below 10), `aiStep`
advances the counter by exactly one. -/
theorem aiStep_no_risk (cfg : Config) (hthr : ¬(cfg.blockRiskThreshold < 10))
    (e : Str × Bool) (sc : ℚ) (used : Nat) (c : Cand) :
    (aiStep cfg e sc used c).2 = used + 1 := by
  unfold aiStep
  dsimp only
  split_ifs with h1 h2 h3 h4 <;> first
    | rfl
    | · simp only [Bool.and_eq_true, decide_eq_true_eq] at h3
        exact absurd h3.1 hthr

/-- Every branch of the AI-loop body marks the item's `ai_parsed` flag, never
yields `notProcessed`, keeps the candidate, and writes exactly one
skipped-log record when (and only when) it skips. -/
theorem aiStep_trace (cfg : Config) (e : Str × Bool) (sc : ℚ) (used : Nat)
    (c : Cand) :
    (aiStep cfg e sc used c).1.flagOut = true ∧
      (aiStep cfg e sc used c).1.dec ≠ S2Dec.notProcessed ∧
      (aiStep cfg e sc used c).1.cand = c ∧
      ((aiStep cfg e sc used c).1.issued.length
        = if (aiStep cfg e sc used c).1.dec = S2Dec.aiSkipped then 1 else 0) ∧
      (∀ r ∈ (aiStep cfg e sc used c).1.issued, r.isSkipRec = true) := by
  unfold aiStep
  dsimp only
  split_ifs <;> simp_all [Rec.isSkipRec]

/-- Unfolding the AI loop under the budget. -/
theorem aiLoop_cons_lt (cfg : Config) (enh : Nat → Str × Bool)
    (risk : Nat → ℚ) (c : Cand) (rest : List Cand) (i used : Nat)
    (h : used < cfg.maxAiPerRun) :
    aiLoop cfg enh risk (c :: rest) i used
      = ((aiStep cfg (enh i) (risk i) used c).1 ::
          (aiLoop cfg enh risk rest (i + 1) (aiStep cfg (enh i) (risk i) used c).2).1,
        (aiLoop cfg enh risk rest (i + 1) (aiStep cfg (enh i) (risk i) used c).2).2) := by
  simp [aiLoop, Nat.not_le.mpr h]

/-- Unfolding the AI loop at an exhausted budget: the `break` leaves every
remaining candidate unprocessed, with no records and its stored flag. -/
theorem aiLoop_cons_ge (cfg : Config) (enh : Nat → Str × Bool)
    (risk : Nat → ℚ) (c : Cand) (rest : List Cand) (i used : Nat)
    (h : cfg.maxAiPerRun ≤ used) :
    aiLoop cfg enh risk (c :: rest) i used
      = ((c :: rest).map fun x => ⟨x, .notProcessed, [], x.aiParsed⟩, used) := by
  simp [aiLoop, h]

/-- The final `ai_requests_used` never exceeds the budget (given it starts
within it). -/
theorem aiLoop_used_le (cfg : Config) (enh : Nat → Str × Bool)
    (risk : Nat → ℚ) :
    ∀ (cands : List Cand) (i used : Nat), used ≤ cfg.maxAiPerRun →
    (aiLoop cfg enh risk cands i used).2 ≤ cfg.maxAiPerRun := by
  intro cands
  induction cands with
  | nil => intro i used h; simpa [aiLoop] using h
  | cons c rest ih =>
    intro i used h
    by_cases hb : cfg.maxAiPerRun ≤ used
    · rw [aiLoop_cons_ge cfg enh risk c rest i used hb]
      exact h
    · have hlt : used < cfg.maxAiPerRun := Nat.not_le.mp hb
      rw [aiLoop_cons_lt cfg enh risk c rest i used hlt]
      refine ih (i + 1) _ ?_
      rcases aiStep_used cfg (enh i) (risk i) used c with h1 | ⟨h2, h3⟩ <;> omega

/-- A candidate left behind by the budget `break` keeps its stored
`ai_parsed` flag. -/
theorem aiLoop_notProcessed_flag (cfg : Config) (enh : Nat → Str × Bool)
    (risk : Nat → ℚ) :
    ∀ (cands : List Cand) (i used : Nat) (t : S2Trace),
    t ∈ (aiLoop cfg enh risk cands i used).1 → t.dec = S2Dec.notProcessed →
    t.flagOut = t.cand.aiParsed := by
  intro cands
  induction cands with
  | nil => intro i used t ht _; simp [aiLoop] at ht
  | cons c rest ih =>
    intro i used t ht hd
    by_cases hb : cfg.maxAiPerRun ≤ used
    · rw [aiLoop_cons_ge cfg enh risk c rest i used hb] at ht
      obtain ⟨x, _, rfl⟩ := List.mem_map.mp ht
      rfl
    · rw [aiLoop_cons_lt cfg enh risk c rest i used (Nat.not_le.mp hb)] at ht
      rcases List.mem_cons.mp ht with rfl | hmem
      · exact absurd hd (aiStep_trace cfg (enh i) (risk i) used c).2.1
      · exact ih (i + 1) _ t hmem hd

/-- Record discipline of the AI loop: one skipped-log record per skipped
candidate, none otherwise. -/
theorem aiLoop_records (cfg : Config) (enh : Nat → Str × Bool)
    (risk : Nat → ℚ) :
    ∀ (cands : List Cand) (i used : Nat) (t : S2Trace),
    t ∈ (aiLoop cfg enh risk cands i used).1 →
    (t.issued.length = if t.dec = S2Dec.aiSkipped then 1 else 0) ∧
      ∀ r ∈ t.issued, r.isSkipRec = true := by
  intro cands
  induction cands with
  | nil => intro i used t ht; simp [aiLoop] at ht
  | cons c rest ih =>
    intro i used t ht
    by_cases hb : cfg.maxAiPerRun ≤ used
    · rw [aiLoop_cons_ge cfg enh risk c rest i used hb] at ht
      obtain ⟨x, _, rfl⟩ := List.mem_map.mp ht
      simp
    · rw [aiLoop_cons_lt cfg enh risk c rest i used (Nat.not_le.mp hb)] at ht
      rcases List.mem_cons.mp ht with rfl | hmem
      · exact ⟨(aiStep_trace cfg (enh i) (risk i) used c).2.2.2.1,
          (aiStep_trace cfg (enh i) (risk i) used c).2.2.2.2⟩
      · exact ih (i + 1) _ t hmem

/-- Record discipline of one posting iteration: exactly one posted-log
record when `posts_attempted` is incremented (successful or dry-run post),
none on failure. -/
theorem postStep_trace (dry : Bool) (o : Option Str) (p : Postable) :
    ((postStep dry o p).issued.length
        = if (postStep dry o p).attempted then 1 else 0) ∧
      ∀ r ∈ (postStep dry o p).issued, r.isPostRec = true := by
  unfold postStep
  cases dry with
  | true => simp [S3Trace.attempted, Rec.isPostRec]
  | false => cases o <;> simp [S3Trace.attempted, Rec.isPostRec]

/-- Record discipline of the posting loop. -/
theorem postLoop_records (dry : Bool) (post : Nat → Option Str) :
    ∀ (ps : List Postable) (j fuel : Nat) (t : S3Trace),
    t ∈ postLoop dry post ps j fuel →
    (t.issued.length = if t.attempted then 1 else 0) ∧
      ∀ r ∈ t.issued, r.isPostRec = true := by
  intro ps
  induction ps with
  | nil => intro j fuel t ht; simp [postLoop] at ht
  | cons p rest ih =>
    intro j fuel t ht
    cases fuel with
    | zero =>
      simp only [postLoop] at ht
      obtain ⟨x, _, rfl⟩ := List.mem_map.mp ht
      simp [S3Trace.attempted]
    | succ f =>
      simp only [postLoop] at ht
      rcases List.mem_cons.mp ht with rfl | hmem
      · exact postStep_trace dry (post j) p
      · exact ih (j + 1) f t hmem

/-- `posts_attempted` is bounded by the `max_posts` slice size. -/
theorem postLoop_attempted_le (dry : Bool) (post : Nat → Option Str) :
    ∀ (ps : List Postable) (j fuel : Nat),
    (postLoop dry post ps j fuel).countP (fun t => t.attempted) ≤ fuel := by
  intro ps
  induction ps with
  | nil => intro j fuel; simp [postLoop]
  | cons p rest ih =>
    intro j fuel
    cases fuel with
    | zero =>
      simp [postLoop, List.countP_map, Function.comp_def, S3Trace.attempted,
        List.countP_eq_zero]
    | succ f =>
      simp only [postLoop, List.countP_cons]
      have h1 := ih (j + 1) f
      by_cases ha : (postStep dry (post j) p).attempted = true <;> simp [ha] <;> omega

/-- Record discipline of the pre-filter loop: exactly one skipped-log record
when the item is skipped, none when it survives; the trace keeps its item. -/
theorem preFilterStep_records (item : Cand) :
    ((preFilterStep item).issued.length
        = if (preFilterStep item).out.isNone then 1 else 0) ∧
      (∀ r ∈ (preFilterStep item).issued, r.isSkipRec = true) ∧
      (preFilterStep item).item = item := by
  unfold preFilterStep preFilterCheck
  dsimp only
  by_cases h1 : item.text.length > X_CHAR_LIMIT
  · rw [if_pos h1]
    by_cases h2 : (truncate_and_format item.text).length > X_CHAR_LIMIT
    · rw [if_pos h2]
      simp [Rec.isSkipRec]
    · rw [if_neg h2]
      by_cases h3 : (is_allowed_tweet (truncate_and_format item.text)).1 = true
      · rw [if_pos h3]
        simp
      · rw [if_neg h3]
        simp [Rec.isSkipRec]
  · rw [if_neg h1]
    by_cases h3 : (is_allowed_tweet item.text).1 = true
    · rw [if_pos h3]
      simp
    · rw [if_neg h3]
      simp [Rec.isSkipRec]

/-- C1: in every run, `posts_attempted` — incremented only on a successful
or dry-run post, inside a loop over `postable_tweets[:max_posts]` — is at
most `min(POSTS_PER_RUN, DAILY_POST_LIMIT - today_posts, number of postable
candidates)`. -/
theorem C1_posting_quota (cfg : Config) (todayPosts : Nat)
    (enh : Nat → Str × Bool) (risk : Nat → ℚ) (post : Nat → Option Str)
    (authOk : Bool) (items : List Cand) :
    postsAttempted (runAll cfg todayPosts enh risk post authOk items) ≤
      min cfg.postsPerRun (min (cfg.dailyPostLimit - todayPosts)
        (runAll cfg todayPosts enh risk post authOk items).postables.length) := by
  unfold runAll postsAttempted
  by_cases hg : cfg.dailyPostLimit ≤ todayPosts
  · rw [if_pos hg]
    simp
  · rw [if_neg hg]
    dsimp only
    by_cases ha : authOk = true
    · rw [if_pos ha]
      exact postLoop_attempted_le _ _ _ 0 _
    · rw [if_neg ha]
      simp

/-- C2: `ai_requests_used` (counting enhancement and risk-assessment calls)
never exceeds `MAX_AI_REQUESTS_PER_RUN`; candidates left behind once the
budget is exhausted keep their stored `ai_parsed` flag; and in the scenario
with budget 2, risk assessment disabled and five fresh candidates, exactly
the first two are processed (their flags become true, the counter ends at
2) and the remaining three stay unprocessed with `ai_parsed = false` and no
records. -/
theorem C2_ai_request_budget :
    (∀ (cfg : Config) (enh : Nat → Str × Bool) (risk : Nat → ℚ)
      (cands : List Cand),
      (aiLoop cfg enh risk cands 0 0).2 ≤ cfg.maxAiPerRun) ∧
    (∀ (cfg : Config) (enh : Nat → Str × Bool) (risk : Nat → ℚ)
      (cands : List Cand) (t : S2Trace),
      t ∈ (aiLoop cfg enh risk cands 0 0).1 →
      t.dec = S2Dec.notProcessed → t.flagOut = t.cand.aiParsed) ∧
    (∀ (per daily : Nat) (dry : Bool) (t1 t2 t3 t4 t5 : Str)
      (enh : Nat → Str × Bool) (risk : Nat → ℚ),
      (aiLoop ⟨per, daily, 2, 10, dry⟩ enh risk
          [⟨t1, false⟩, ⟨t2, false⟩, ⟨t3, false⟩, ⟨t4, false⟩, ⟨t5, false⟩]
          0 0).2 = 2 ∧
      ((aiLoop ⟨per, daily, 2, 10, dry⟩ enh risk
          [⟨t1, false⟩, ⟨t2, false⟩, ⟨t3, false⟩, ⟨t4, false⟩, ⟨t5, false⟩]
          0 0).1.map fun t => t.flagOut) = [true, true, false, false, false] ∧
      ((aiLoop ⟨per, daily, 2, 10, dry⟩ enh risk
          [⟨t1, false⟩, ⟨t2, false⟩, ⟨t3, false⟩, ⟨t4, false⟩, ⟨t5, false⟩]
          0 0).1.drop 2)
        = [⟨⟨t3, false⟩, .notProcessed, [], false⟩,
           ⟨⟨t4, false⟩, .notProcessed, [], false⟩,
           ⟨⟨t5, false⟩, .notProcessed, [], false⟩]) := by
  refine ⟨?_, ?_, ?_⟩
  · intro cfg enh risk cands
    exact aiLoop_used_le cfg enh risk cands 0 0 (Nat.zero_le _)
  · intro cfg enh risk cands t ht hd
    exact aiLoop_notProcessed_flag cfg enh risk cands 0 0 t ht hd
  · intro per daily dry t1 t2 t3 t4 t5 enh risk
    have hthr : ¬((⟨per, daily, 2, 10, dry⟩ : Config).blockRiskThreshold < 10) := by
      exact lt_irrefl 10
    have f1 := (aiStep_trace ⟨per, daily, 2, 10, dry⟩ (enh 0) (risk 0) 0 ⟨t1, false⟩).1
    have f2 := (aiStep_trace ⟨per, daily, 2, 10, dry⟩ (enh 1) (risk 1) 1 ⟨t2, false⟩).1
    rw [aiLoop_cons_lt _ enh risk _ _ 0 0 (by show (0 : Nat) < 2; omega),
      aiStep_no_risk _ hthr (enh 0) (risk 0) 0 ⟨t1, false⟩]
    simp only [Nat.zero_add]
    rw [aiLoop_cons_lt _ enh risk _ _ 1 1 (by show (1 : Nat) < 2; omega),
      aiStep_no_risk _ hthr (enh 1) (risk 1) 1 ⟨t2, false⟩]
    rw [aiLoop_cons_ge _ enh risk _ _ 2 (1 + 1) (by show (2 : Nat) ≤ 1 + 1; omega)]
    refine ⟨rfl, ?_, rfl⟩
    simp [f1, f2]

/-- Witness for C2: with budget 2, the third of three candidates is left
unprocessed and keeps its stored flag. -/
theorem C2_ai_request_budget_witness :
    (⟨⟨['a'], true⟩, .notProcessed, [], true⟩ : S2Trace).flagOut
      = (⟨⟨['a'], true⟩, .notProcessed, [], true⟩ : S2Trace).cand.aiParsed :=
  C2_ai_request_budget.2.1 ⟨1, 17, 2, 10, false⟩ (fun _ => (['x'], true))
    (fun _ => 0) [⟨[], false⟩, ⟨[], false⟩, ⟨['a'], true⟩]
    ⟨⟨['a'], true⟩, .notProcessed, [], true⟩ (by decide) (by decide)

/-- C3 counterexample: the claim asserts every terminal decision is
unconditionally recorded in the durable log, but `log_skipped_tweet`
(x-bot.py lines 318-322) swallows the append failure raised by
`_atomic_json_append`.  In a run whose single item reaches a terminal
decision (skipped by the pre-filter on a blocked keyword) exactly one append
is issued, yet when that append fails the durable skipped log receives
nothing: the terminal decision goes unrecorded and the pipeline moves on. -/
theorem C3_counterexample :
    ((runAll ⟨1, 17, 40, 10, false⟩ 0 (fun _ => ([], false)) (fun _ => 0)
        (fun _ => none) true [⟨"Join us tomorrow!".toList, false⟩]).s1.map
      fun t => t.out.isNone) = [true] ∧
    ((runAll ⟨1, 17, 40, 10, false⟩ 0 (fun _ => ([], false)) (fun _ => 0)
        (fun _ => none) true [⟨"Join us tomorrow!".toList, false⟩]).s1.map
      fun t => t.issued.length) = [1] ∧
    durableConcat (fun _ => false)
      ((runAll ⟨1, 17, 40, 10, false⟩ 0 (fun _ => ([], false)) (fun _ => 0)
          (fun _ => none) true [⟨"Join us tomorrow!".toList, false⟩]).s1.map
        fun t => t.issued) 0 = [] := by
  refine ⟨by decide, by decide, by decide⟩

/-- C3 (amended): in every run, each element that reaches a terminal
decision ISSUES exactly one append to the log appropriate to that decision
before the pipeline moves to the next candidate — a pre-filter trace one
skipped-log append iff the item was skipped there; an AI-loop trace one
skipped-log append iff the candidate was skipped there (unprocessed and
postable candidates issue none); a posting trace one posted-log append iff
the tweet was posted or dry-run-simulated (a failed post and an unattempted
candidate issue none) — and the decision is durably recorded exactly once
iff that single append succeeds: `log_posted_tweet` / `log_skipped_tweet`
(lines 310-314, 318-322) swallow append failures, so on a persistence
failure the terminal decision goes unrecorded (never recorded twice). -/
theorem C3_terminal_decisions_logged (cfg : Config) (todayPosts : Nat)
    (enh : Nat → Str × Bool) (risk : Nat → ℚ) (post : Nat → Option Str)
    (authOk : Bool) (items : List Cand) :
    (∀ t ∈ (runAll cfg todayPosts enh risk post authOk items).s1,
      (t.issued.length = if t.out.isNone then 1 else 0) ∧
        ∀ r ∈ t.issued, r.isSkipRec = true) ∧
    (∀ t ∈ (runAll cfg todayPosts enh risk post authOk items).s2,
      (t.issued.length = if t.dec = S2Dec.aiSkipped then 1 else 0) ∧
        ∀ r ∈ t.issued, r.isSkipRec = true) ∧
    (∀ t ∈ (runAll cfg todayPosts enh risk post authOk items).s3,
      (t.issued.length = if t.attempted then 1 else 0) ∧
        ∀ r ∈ t.issued, r.isPostRec = true) ∧
    (∀ (ok : Bool), ∀ t ∈ (runAll cfg todayPosts enh risk post authOk items).s1,
      (durableRecs ok t.issued).length
        = if t.out.isNone ∧ ok = true then 1 else 0) ∧
    (∀ (ok : Bool), ∀ t ∈ (runAll cfg todayPosts enh risk post authOk items).s2,
      (durableRecs ok t.issued).length
        = if t.dec = S2Dec.aiSkipped ∧ ok = true then 1 else 0) ∧
    (∀ (ok : Bool), ∀ t ∈ (runAll cfg todayPosts enh risk post authOk items).s3,
      (durableRecs ok t.issued).length
        = if t.attempted ∧ ok = true then 1 else 0) := by
  have H : (∀ t ∈ (runAll cfg todayPosts enh risk post authOk items).s1,
      (t.issued.length = if t.out.isNone then 1 else 0) ∧
        ∀ r ∈ t.issued, r.isSkipRec = true) ∧
      (∀ t ∈ (runAll cfg todayPosts enh risk post authOk items).s2,
        (t.issued.length = if t.dec = S2Dec.aiSkipped then 1 else 0) ∧
          ∀ r ∈ t.issued, r.isSkipRec = true) ∧
      (∀ t ∈ (runAll cfg todayPosts enh risk post authOk items).s3,
        (t.issued.length = if t.attempted then 1 else 0) ∧
          ∀ r ∈ t.issued, r.isPostRec = true) := by
    unfold runAll
    by_cases hg : cfg.dailyPostLimit ≤ todayPosts
    · rw [if_pos hg]
      refine ⟨?_, ?_, ?_⟩ <;> (intro t ht; simp at ht)
    · rw [if_neg hg]
      dsimp only
      refine ⟨?_, ?_, ?_⟩
      · intro t ht
        obtain ⟨item, _, rfl⟩ := List.mem_map.mp ht
        exact ⟨(preFilterStep_records item).1, (preFilterStep_records item).2.1⟩
      · intro t ht
        exact aiLoop_records cfg enh risk _ 0 0 t ht
      · intro t ht
        by_cases ha : authOk = true
        · rw [if_pos ha] at ht
          exact postLoop_records cfg.dryRun post _ 0 _ t ht
        · rw [if_neg ha] at ht
          simp at ht
  refine ⟨H.1, H.2.1, H.2.2, ?_, ?_, ?_⟩
  · intro ok t ht
    cases ok with
    | false => simp [durableRecs]
    | true => simpa [durableRecs] using (H.1 t ht).1
  · intro ok t ht
    cases ok with
    | false => simp [durableRecs]
    | true => simpa [durableRecs] using (H.2.1 t ht).1
  · intro ok t ht
    cases ok with
    | false => simp [durableRecs]
    | true => simpa [durableRecs] using (H.2.2 t ht).1

/-- Witness for the amended C3: a concrete run whose single item is skipped
by the pre-filter (blocked keyword) issues exactly one skipped-log append. -/
theorem C3_terminal_decisions_logged_witness :
    (preFilterStep ⟨"Join us tomorrow!".toList, false⟩).issued.length
      = (if (preFilterStep ⟨"Join us tomorrow!".toList, false⟩).out.isNone
          then 1 else 0) :=
  ((C3_terminal_decisions_logged ⟨1, 17, 40, 10, false⟩ 0 (fun _ => ([], false))
      (fun _ => 0) (fun _ => none) true [⟨"Join us tomorrow!".toList, false⟩]).1
    (preFilterStep ⟨"Join us tomorrow!".toList, false⟩) (by decide)).1

end XBot
